import Mathlib

/-!
Shallow embedding of the book-review web service (FastAPI + SQLAlchemy) and
proofs about its review routes, sentiment mapping and authentication helper.

Tables are embedded as lists of rows, the database as a record of tables.
Timestamps are integers (seconds); `datetime.utcnow()` becomes an explicit
`now` parameter and `timedelta(weeks=1)` the constant 604800.  The external
sentiment classifier (`transformers` pipeline) is an opaque parameter
`classify : String → String` producing the raw label; `analyze_sentiment`
embeds the label-mapping wrapper from src/ml/sentiment_analysis.py.
Handlers return `Except ApiError α`; an `HTTPException(status, detail)`
becomes `.error (.http status detail)` and an uncaught Python exception
becomes `.error (.attributeError msg)`.
-/

namespace BookReview

/-- Row of the users table (src/models/models.py, class User). -/
structure User where
  id : Nat
  username : String
  email : String
  password_hash : String
deriving Repr, DecidableEq

/-- Row of the books table (src/models/models.py, class Book). -/
structure Book where
  id : Nat
  title : String
  author : String
  review_count : Nat
deriving Repr, DecidableEq

/-- Row of the reviews table (src/models/models.py, class Review). -/
structure Review where
  id : Nat
  user_id : Nat
  book_id : Nat
  review_text : String
  sentiment : String
  created_at : Int
deriving Repr, DecidableEq

/-- The relational database state: the three tables. -/
structure DB where
  users : List User
  books : List Book
  reviews : List Review
deriving Repr, DecidableEq

/-- Request body for POST /books/review/ (src/schemas/schemas.py, ReviewCreate).
There is no sentiment field: clients cannot supply a sentiment. -/
structure ReviewCreate where
  book_title : String
  book_author : String
  review_text : String
deriving Repr, DecidableEq

/-- Request body for PUT /books/review/ (src/schemas/schemas.py, ReviewUpdate). -/
structure ReviewUpdate where
  id : Nat
  book_title : String
  book_author : String
  review_text : String
deriving Repr, DecidableEq

/-- Response model for create/update (src/schemas/schemas.py, ReviewResponse). -/
structure ReviewResponse where
  id : Nat
  user_id : Nat
  book_id : Nat
  book_title : String
  book_author : String
  review_text : String
  sentiment : String
  created_at : Int
deriving Repr, DecidableEq

/-- Per-review entry in the grouped listing (ReviewResponseGrouped). -/
structure ReviewResponseGrouped where
  id : Nat
  user_id : Nat
  review_text : String
  sentiment : String
  created_at : Int
deriving Repr, DecidableEq

/-- Per-book entry in the grouped listing (BookWithReviewsResponse). -/
structure BookWithReviewsResponse where
  book_id : Nat
  book_title : String
  book_author : String
  reviews : List ReviewResponseGrouped
deriving Repr, DecidableEq

/-- Response model for trending books (src/schemas/schemas.py, BookResponse). -/
structure BookResponse where
  id : Nat
  title : String
  author : String
  review_count : Nat
deriving Repr, DecidableEq

/-- Outcome of a failed handler: an HTTPException with status and detail,
or an uncaught Python AttributeError. -/
inductive ApiError where
  | http (status : Nat) (detail : String)
  | attributeError (msg : String)
deriving Repr, DecidableEq

/-- Does the character list start with the given needle (element-wise)? -/
def startsWithList : List Char → List Char → Bool
  | [], _ => true
  | _ :: _, [] => false
  | a :: as, b :: bs => a == b && startsWithList as bs

/-- Does `haystack` contain `needle` as a contiguous sublist? -/
def hasSub (needle : List Char) : List Char → Bool
  | [] => startsWithList needle []
  | c :: cs => startsWithList needle (c :: cs) || hasSub needle cs

/-- The Python substring test `needle in haystack` on strings. -/
def pyIn (needle haystack : String) : Bool :=
  hasSub needle.data haystack.data

/-- ASCII lower-casing of one character. -/
def pyLowerChar (c : Char) : Char :=
  if 65 ≤ c.toNat ∧ c.toNat ≤ 90 then Char.ofNat (c.toNat + 32) else c

/-- The Python `str.lower()` of the texts and labels involved (ASCII). -/
def pyLower (s : String) : String :=
  String.mk (s.data.map pyLowerChar)

/-- The first denylist pattern of create_review (src/routes/reviews.py line
262): a single-quote character followed by `); drop table`. -/
def sqlPat1 : String :=
  String.singleton (Char.ofNat 39) ++ "); drop table"

/-- The denylist test of create_review (src/routes/reviews.py line 262):
`any(x in review_data.review_text.lower() for x in [...])`. -/
def denylisted_create (text : String) : Bool :=
  [sqlPat1, "delete from", "--"].any (fun x => pyIn x (pyLower text))

/-- src/ml/sentiment_analysis.py, analyze_sentiment: lower-case the raw
classifier label; positive and negative map to themselves, anything else
collapses to neutral. -/
def analyze_sentiment (classify : String → String) (review_text : String) : String :=
  let label := pyLower (classify review_text)
  if label == "positive" then "positive"
  else if label == "negative" then "negative"
  else "neutral"

/-- Autoincrement primary key for a new reviews row. -/
def nextReviewId (db : DB) : Nat :=
  (db.reviews.map (fun r => r.id)).foldr max 0 + 1

/-- src/routes/reviews.py lines 260-306, create_review.  `current_user_id`
is the id of the authenticated user resolved by the dependency, `classify`
the external sentiment pipeline and `now` the value of datetime.utcnow(). -/
def create_review (db : DB) (current_user_id : Nat) (review_data : ReviewCreate)
    (classify : String → String) (now : Int) : Except ApiError (DB × ReviewResponse) :=
  if denylisted_create review_data.review_text
      || review_data.book_title.length == 0 || review_data.book_author.length == 0 then
    .error (.http 400 "Invalid input detected.")
  else if decide (1000 < review_data.review_text.length) then
    .error (.http 400 "Review text exceeds 5000 characters")
  else
    match db.books.find? (fun b =>
        b.title == review_data.book_title && b.author == review_data.book_author) with
    | none => .error (.http 404 "Book not found")
    | some book =>
      match db.reviews.find? (fun r =>
          r.user_id == current_user_id && r.book_id == book.id) with
      | some _ => .error (.http 400 "You have already reviewed this book.")
      | none =>
        let new_review : Review :=
          { id := nextReviewId db
            user_id := current_user_id
            book_id := book.id
            review_text := review_data.review_text
            sentiment := analyze_sentiment classify review_data.review_text
            created_at := now }
        let db2 : DB := { db with reviews := db.reviews ++ [new_review] }
        .ok (db2,
          { id := new_review.id
            user_id := new_review.user_id
            book_id := book.id
            book_title := review_data.book_title
            book_author := review_data.book_author
            review_text := new_review.review_text
            sentiment := new_review.sentiment
            created_at := new_review.created_at })

/-- src/routes/reviews.py lines 340-376, update_review.  Its first statement
(line 342) evaluates `review_data.lower()`, but `review_data` is the
ReviewUpdate pydantic model, which has no such attribute: Python raises
AttributeError before any database row is read or written, so every call
fails and the rest of the function body (embedded below as
`update_review_body`) is unreachable. -/
def update_review (db : DB) (current_user_id : Nat) (review_data : ReviewUpdate) :
    Except ApiError (DB × ReviewResponse) :=
  .error (.attributeError "ReviewUpdate object has no attribute lower")

/-- src/routes/reviews.py lines 345-376: the (unreachable) remainder of
update_review after the broken denylist line.  It overwrites book_id,
review_text and sentiment of the matched row and leaves id, user_id and
created_at unchanged. -/
def update_review_body (db : DB) (review_data : ReviewUpdate)
    (classify : String → String) : Except ApiError (DB × ReviewResponse) :=
  match db.reviews.find? (fun r => r.id == review_data.id) with
  | none => .error (.http 404 "Review not found")
  | some review =>
    match db.books.find? (fun b =>
        b.title == review_data.book_title && b.author == review_data.book_author) with
    | none => .error (.http 404 "Book not found")
    | some book =>
      let updated : Review :=
        { review with
            book_id := book.id
            review_text := review_data.review_text
            sentiment := analyze_sentiment classify review_data.review_text }
      let db2 : DB :=
        { db with reviews := db.reviews.map (fun r =>
            if r.id == review_data.id then updated else r) }
      .ok (db2,
        { id := review_data.id
          user_id := review.user_id
          book_id := book.id
          book_title := review_data.book_title
          book_author := review_data.book_author
          review_text := review_data.review_text
          sentiment := updated.sentiment
          created_at := review.created_at })

/-- Outcome of jwt.decode in src/app/security.py: either a payload whose
`sub` claim may be present or absent, or one of the failure modes that make
jwt.decode raise (bad signature, expired token, structurally malformed). -/
inductive DecodeResult where
  | payload (sub : Option String)
  | badSignature
  | expired
  | malformed
deriving Repr, DecidableEq

/-- src/app/security.py lines 27-40, get_current_user.  The whole body sits
in a try block with a bare except that raises HTTPException 401
"Invalid authentication token"; the inner 401 raises (missing sub claim,
unknown user) are themselves caught by that bare except, so every failure
mode produces the same single outcome. -/
def get_current_user (decode : DecodeResult) (db : DB) : Except ApiError User :=
  match decode with
  | .payload none => .error (.http 401 "Invalid authentication token")
  | .payload (some email) =>
    match db.users.find? (fun u => u.email == email) with
    | none => .error (.http 401 "Invalid authentication token")
    | some user => .ok user
  | _ => .error (.http 401 "Invalid authentication token")

/-- Insert `a` into `l` in front of the first element it is le-below:
the insertion step of a stable insertion sort. -/
def insertLE {α : Type} (le : α → α → Bool) (a : α) : List α → List α
  | [] => [a]
  | b :: bs => if le a b then a :: b :: bs else b :: insertLE le a bs

/-- Stable insertion sort by a boolean relation: the model of SQL ORDER BY
and of the Python builtin `sorted` (both produce some ordering consistent
with the key; stability and tie order are irrelevant to the claims). -/
def sortLE {α : Type} (le : α → α → Bool) : List α → List α
  | [] => []
  | a :: as => insertLE le a (sortLE le as)

/-- Sort key of the ORDER BY case expression in get_reviews
(src/routes/reviews.py lines 77-84): positive 1, negative 2, else 3. -/
def sentimentRank (s : String) : Nat :=
  if s == "positive" then 1 else if s == "negative" then 2 else 3

/-- One row of the Review × Book join in get_reviews. -/
structure JoinedRow where
  id : Nat
  user_id : Nat
  book_id : Nat
  review_text : String
  sentiment : String
  created_at : Int
  book_title : String
  book_author : String
deriving Repr, DecidableEq

/-- The ORDER BY relation of get_reviews: sentiment rank ascending, then
created_at descending. -/
def rowLE (a b : JoinedRow) : Bool :=
  decide (sentimentRank a.sentiment < sentimentRank b.sentiment)
  || (sentimentRank a.sentiment == sentimentRank b.sentiment
      && decide (b.created_at ≤ a.created_at))

/-- The inner join `Review JOIN Book ON Book.id == Review.book_id` of
get_reviews (src/routes/reviews.py lines 72-75). -/
def joinRows (db : DB) : List JoinedRow :=
  db.reviews.flatMap (fun r =>
    (db.books.filter (fun b => b.id == r.book_id)).map (fun b =>
      { id := r.id
        user_id := r.user_id
        book_id := r.book_id
        review_text := r.review_text
        sentiment := r.sentiment
        created_at := r.created_at
        book_title := b.title
        book_author := b.author }))

/-- First-seen order of keys, as produced by inserting into a Python dict
while iterating the rows. -/
def firstSeen : List Nat → List Nat
  | [] => []
  | k :: rest => k :: (firstSeen rest).filter (fun x => x != k)

/-- src/routes/reviews.py lines 67-118, get_reviews (GET /books/): join,
order by sentiment rank then created_at descending, 404 on an empty result,
otherwise group by book_id in first-seen order (book title/author taken
from the last row of the group, as the dict entry is overwritten per row). -/
def get_reviews (db : DB) : Except ApiError (List BookWithReviewsResponse) :=
  let rows := sortLE rowLE (joinRows db)
  if rows.isEmpty then
    .error (.http 404 "No reviews found in the system")
  else
    .ok ((firstSeen (rows.map (fun r => r.book_id))).map (fun bid =>
      let group := rows.filter (fun r => r.book_id == bid)
      { book_id := bid
        book_title := (match group.getLast? with
          | some r => r.book_title
          | none => "")
        book_author := (match group.getLast? with
          | some r => r.book_author
          | none => "")
        reviews := group.map (fun r =>
          { id := r.id
            user_id := r.user_id
            review_text := r.review_text
            sentiment := r.sentiment
            created_at := r.created_at }) }))

/-- Number of qualifying (positive, inside the trailing-week window) reviews
of the book with id `bid`: the `positive_count` of get_trending_books
(src/routes/reviews.py lines 206-210). -/
def qualifyingCount (db : DB) (one_week_ago : Int) (bid : Nat) : Nat :=
  (db.reviews.filter (fun r =>
    r.book_id == bid && r.sentiment == "positive"
      && decide (one_week_ago ≤ r.created_at))).length

/-- The descending-by-count key of `sorted(..., key=..., reverse=True)` in
get_trending_books (src/routes/reviews.py line 218). -/
def countDescLE (a b : Book × Nat) : Bool :=
  decide (b.2 ≤ a.2)

/-- Python list slicing `l[:stop]` for an int `stop`, as used in
`trending_books[:count]`: a negative stop counts from the end. -/
def pySlice {α : Type} (l : List α) (stop : Int) : List α :=
  if 0 ≤ stop then l.take stop.toNat
  else l.take ((l.length : Int) + stop).toNat

/-- src/routes/reviews.py lines 192-228, get_trending_books
(GET /books/trending/{count}).  `count` is a Python int path parameter
(default 10); `now` stands for datetime.utcnow(), so `one_week_ago` is
`now - 604800` seconds.  Note the 404 is raised whenever `books` — the
books having at least one positive review in the window — is empty. -/
def get_trending_books (db : DB) (now : Int) (count : Int) :
    Except ApiError (List BookResponse) :=
  let one_week_ago := now - 604800
  let recent_book_ids := (db.reviews.filter (fun r =>
    decide (one_week_ago ≤ r.created_at) && r.sentiment == "positive")).map (fun r => r.book_id)
  let books := db.books.filter (fun b => recent_book_ids.contains b.id)
  if books.isEmpty then
    .error (.http 404 "No books in the system")
  else
    let book_positive_counts :=
      (books.map (fun b => (b, qualifyingCount db one_week_ago b.id))).filter
        (fun p => decide (0 < p.2))
    if book_positive_counts.isEmpty then
      .ok []
    else
      let trending_books := sortLE countDescLE book_positive_counts
      .ok ((pySlice trending_books count).map (fun p =>
        { id := p.1.id
          title := p.1.title
          author := p.1.author
          review_count := p.2 }))

/-- Decidable equality on handler outcomes, for concrete evaluation. -/
instance {ε α : Type} [DecidableEq ε] [DecidableEq α] : DecidableEq (Except ε α) := fun x y =>
  match x, y with
  | .ok a, .ok b =>
    if h : a = b then .isTrue (by rw [h])
    else .isFalse (fun hc => h (by injection hc))
  | .error a, .error b =>
    if h : a = b then .isTrue (by rw [h])
    else .isFalse (fun hc => h (by injection hc))
  | .ok _, .error _ => .isFalse (fun hc => Except.noConfusion hc)
  | .error _, .ok _ => .isFalse (fun hc => Except.noConfusion hc)

/-- Is the outcome a 400-class validation failure (HTTPException 400)? -/
def isHttp400 {α : Type} : Except ApiError α → Bool
  | .error (.http 400 _) => true
  | _ => false

/-- A classifier stub that labels every text POSITIVE. -/
def classifyPos : String → String := fun _ => "POSITIVE"

/-- A database whose Book table is non-empty but that has no reviews. -/
def dbC1 : DB :=
  { users := []
    books := [{ id := 1, title := "B1", author := "A1", review_count := 0 }]
    reviews := [] }

/-- One user, one book, no reviews. -/
def dbW4 : DB :=
  { users := [{ id := 1, username := "u", email := "u@x", password_hash := "h" }]
    books := [{ id := 1, title := "T", author := "A", review_count := 0 }]
    reviews := [] }

/-- A valid creation request against the book of `dbW4`. -/
def rdW4 : ReviewCreate :=
  { book_title := "T", book_author := "A", review_text := "great" }

/-- `dbW4` after `rdW4` was posted by user 1 at time 100. -/
def dbW4b : DB :=
  { users := [{ id := 1, username := "u", email := "u@x", password_hash := "h" }]
    books := [{ id := 1, title := "T", author := "A", review_count := 0 }]
    reviews := [{ id := 1, user_id := 1, book_id := 1, review_text := "great",
                  sentiment := "positive", created_at := 100 }] }

/-- The response of that first successful creation. -/
def respW4 : ReviewResponse :=
  { id := 1, user_id := 1, book_id := 1, book_title := "T", book_author := "A",
    review_text := "great", sentiment := "positive", created_at := 100 }

/-- A creation request whose review_text is empty. -/
def rdEmpty : ReviewCreate :=
  { book_title := "T", book_author := "A", review_text := "" }

/-- A creation request whose review_text contains the words drop table. -/
def rdDrop : ReviewCreate :=
  { book_title := "T", book_author := "A", review_text := "drop table students" }

/-- A creation request with an empty book_title. -/
def rdNoTitle : ReviewCreate :=
  { book_title := "", book_author := "A", review_text := "fine" }

/-- A creation request whose review_text has 1001 characters. -/
def rdLong : ReviewCreate :=
  { book_title := "T", book_author := "A",
    review_text := String.mk (List.replicate 1001 (Char.ofNat 97)) }

/-- Two books; user 7 reviewed book 1 at time 50. -/
def dbC5 : DB :=
  { users := []
    books := [{ id := 1, title := "B1", author := "A1", review_count := 0 },
              { id := 2, title := "B2", author := "A2", review_count := 0 }]
    reviews := [{ id := 1, user_id := 7, book_id := 1, review_text := "old",
                  sentiment := "positive", created_at := 50 }] }

/-- An update of review 1 pointing it at the other book of `dbC5`. -/
def rdC5 : ReviewUpdate :=
  { id := 1, book_title := "B2", book_author := "A2", review_text := "new text" }

/-- One book with one review (used as the grouped-listing witness state). -/
def dbC6 : DB :=
  { users := []
    books := [{ id := 1, title := "B1", author := "A1", review_count := 0 }]
    reviews := [{ id := 1, user_id := 1, book_id := 1, review_text := "x",
                  sentiment := "neutral", created_at := 5 },
                { id := 2, user_id := 2, book_id := 1, review_text := "y",
                  sentiment := "positive", created_at := 3 }] }

/-- Two books, each with one fresh positive review at time 1209600. -/
def dbC7 : DB :=
  { users := []
    books := [{ id := 1, title := "B1", author := "A1", review_count := 0 },
              { id := 2, title := "B2", author := "A2", review_count := 0 }]
    reviews := [{ id := 1, user_id := 1, book_id := 1, review_text := "x",
                  sentiment := "positive", created_at := 1209600 },
                { id := 2, user_id := 2, book_id := 2, review_text := "y",
                  sentiment := "positive", created_at := 1209600 }] }

/-- What GET books trending with count -1 returns on `dbC7`: one entry. -/
def lC7neg : List BookResponse :=
  [{ id := 1, title := "B1", author := "A1", review_count := 1 }]

/-- What GET /books/trending/10 returns on `dbC7`: both books. -/
def lC7pos : List BookResponse :=
  [{ id := 1, title := "B1", author := "A1", review_count := 1 },
   { id := 2, title := "B2", author := "A2", review_count := 1 }]

/-- One user, used as the authentication witness state. -/
def dbW9 : DB :=
  { users := [{ id := 1, username := "u", email := "u@x", password_hash := "h" }]
    books := []
    reviews := [] }

/-- Inserting an element permutes with consing it. -/
lemma insertLE_perm {α : Type} (le : α → α → Bool) (a : α) (l : List α) :
    (insertLE le a l).Perm (a :: l) := by
  induction l with
  | nil => exact List.Perm.refl _
  | cons b bs ih =>
    unfold insertLE
    split
    · exact List.Perm.refl _
    · exact (List.Perm.cons b ih).trans (List.Perm.swap a b bs)

/-- The insertion sort permutes its input. -/
lemma sortLE_perm {α : Type} (le : α → α → Bool) (l : List α) :
    (sortLE le l).Perm l := by
  induction l with
  | nil => exact List.Perm.refl _
  | cons a as ih =>
    unfold sortLE
    exact (insertLE_perm le a (sortLE le as)).trans (List.Perm.cons a ih)

/-- Inserting into a le-pairwise list keeps it le-pairwise, for a
transitive and total boolean relation. -/
lemma insertLE_pairwise {α : Type} (le : α → α → Bool)
    (htrans : ∀ a b c, le a b = true → le b c = true → le a c = true)
    (htotal : ∀ a b, (le a b || le b a) = true)
    (a : α) (l : List α) (h : List.Pairwise (fun x y => le x y = true) l) :
    List.Pairwise (fun x y => le x y = true) (insertLE le a l) := by
  induction l with
  | nil => simp [insertLE]
  | cons b bs ih =>
    unfold insertLE
    obtain ⟨hb, hbs⟩ := List.pairwise_cons.mp h
    split
    · rename_i hab
      refine List.Pairwise.cons ?_ h
      intro x hx
      rcases List.mem_cons.mp hx with hxb | hxbs
      · subst hxb
        exact hab
      · exact htrans a b x hab (hb x hxbs)
    · rename_i hab
      have hba : le b a = true := by
        have ht := htotal a b
        rw [Bool.or_eq_true] at ht
        rcases ht with h1 | h1
        · exact absurd h1 hab
        · exact h1
      refine List.Pairwise.cons ?_ (ih hbs)
      intro x hx
      have hx2 : x ∈ a :: bs := ((insertLE_perm le a bs).mem_iff).mp hx
      rcases List.mem_cons.mp hx2 with hxa | hxbs
      · subst hxa
        exact hba
      · exact hb x hxbs

/-- The insertion sort output is le-pairwise, for a transitive and total
boolean relation. -/
lemma sortLE_pairwise {α : Type} (le : α → α → Bool)
    (htrans : ∀ a b c, le a b = true → le b c = true → le a c = true)
    (htotal : ∀ a b, (le a b || le b a) = true)
    (l : List α) :
    List.Pairwise (fun x y => le x y = true) (sortLE le l) := by
  induction l with
  | nil => exact List.Pairwise.nil
  | cons a as ih =>
    unfold sortLE
    exact insertLE_pairwise le htrans htotal a _ ih

/-- The sentiment rank takes only the values 1, 2 and 3. -/
lemma sentimentRank_cases (s : String) :
    sentimentRank s = 1 ∨ sentimentRank s = 2 ∨ sentimentRank s = 3 := by
  unfold sentimentRank
  split
  · exact Or.inl rfl
  · split
    · exact Or.inr (Or.inl rfl)
    · exact Or.inr (Or.inr rfl)

/-- Rank 1 characterises the positive sentiment. -/
lemma sentimentRank_eq_one_iff (s : String) :
    sentimentRank s = 1 ↔ s = "positive" := by
  constructor
  · intro h1
    unfold sentimentRank at h1
    split at h1
    · rename_i hb
      simpa using hb
    · split at h1
      · exact absurd h1 (by decide)
      · exact absurd h1 (by decide)
  · intro h
    subst h
    rfl

/-- Every sentiment rank is at least 1. -/
lemma one_le_sentimentRank (s : String) : 1 ≤ sentimentRank s := by
  rcases sentimentRank_cases s with h | h | h <;> omega

/-- The get_reviews ORDER BY relation is transitive. -/
lemma rowLE_trans (a b c : JoinedRow) (hab : rowLE a b = true) (hbc : rowLE b c = true) :
    rowLE a c = true := by
  simp only [rowLE, Bool.or_eq_true, Bool.and_eq_true, decide_eq_true_eq,
    beq_iff_eq] at hab hbc ⊢
  omega

/-- The get_reviews ORDER BY relation is total. -/
lemma rowLE_total (a b : JoinedRow) : (rowLE a b || rowLE b a) = true := by
  simp only [rowLE, Bool.or_eq_true, Bool.and_eq_true, decide_eq_true_eq,
    beq_iff_eq]
  omega

/-- The trending sort key is transitive. -/
lemma countDescLE_trans (a b c : Book × Nat) (hab : countDescLE a b = true)
    (hbc : countDescLE b c = true) : countDescLE a c = true := by
  simp only [countDescLE, decide_eq_true_eq] at hab hbc ⊢
  omega

/-- The trending sort key is total. -/
lemma countDescLE_total (a b : Book × Nat) : (countDescLE a b || countDescLE b a) = true := by
  simp only [countDescLE, Bool.or_eq_true, decide_eq_true_eq]
  omega

/-- Under referential integrity the Review × Book join is empty exactly
when the reviews table is empty. -/
lemma joinRows_eq_nil_iff (db : DB)
    (hwf : ∀ r ∈ db.reviews, ∃ b ∈ db.books, b.id = r.book_id) :
    joinRows db = [] ↔ db.reviews = [] := by
  constructor
  · intro h
    cases hr : db.reviews with
    | nil => rfl
    | cons r t =>
      exfalso
      obtain ⟨b, hb, hid⟩ := hwf r (by rw [hr]; exact List.mem_cons_self r t)
      have hbmem : b ∈ db.books.filter (fun b2 => b2.id == r.book_id) :=
        List.mem_filter.mpr ⟨hb, by simp [hid]⟩
      unfold joinRows at h
      rw [hr, List.flatMap_cons] at h
      have h2 := (List.append_eq_nil.mp h).1
      rw [List.map_eq_nil_iff] at h2
      rw [h2] at hbmem
      exact absurd hbmem (List.not_mem_nil b)
  · intro h
    unfold joinRows
    rw [h]
    rfl

/-- C1: on a database whose Book table is non-empty (one book) but that has
no qualifying positive recent review, get_trending_books does not return an
empty list: it raises 404 "No books in the system", contradicting its own
route documentation, which promises an empty list in that case and reserves
404 for an empty Book table. -/
theorem trending_404_despite_nonempty_books :
    get_trending_books dbC1 0 10 = .error (.http 404 "No books in the system")
      ∧ dbC1.books.length = 1 ∧ dbC1.reviews = [] :=
  ⟨rfl, rfl, rfl⟩

/-- C10: every invocation of update_review fails with the AttributeError
raised by `review_data.lower()` on the ReviewUpdate model (line 342 of
src/routes/reviews.py), before any database row is read or written; in
particular no invocation ever returns a modified database, so no stored
Review is ever changed. -/
theorem update_review_always_attribute_error :
    ∀ (db : DB) (current_user_id : Nat) (review_data : ReviewUpdate),
      update_review db current_user_id review_data
        = .error (.attributeError "ReviewUpdate object has no attribute lower") := by
  intro db uid rd
  rfl

/-- C5: no update ever succeeds — the concrete, otherwise-valid update
request `rdC5` on `dbC5` hits the line-342 AttributeError — and even the
unreachable remainder of the function (lines 345-376) would move the review
to the other book and overwrite review_text and sentiment while leaving id,
user_id and created_at unchanged (created_at stays 50, not overwritten). -/
theorem update_review_crash_and_intended_body :
    update_review dbC5 7 rdC5
        = .error (.attributeError "ReviewUpdate object has no attribute lower")
      ∧ update_review_body dbC5 rdC5 classifyPos
        = .ok
          ({ users := []
             books := [{ id := 1, title := "B1", author := "A1", review_count := 0 },
                       { id := 2, title := "B2", author := "A2", review_count := 0 }]
             reviews := [{ id := 1, user_id := 7, book_id := 2, review_text := "new text",
                           sentiment := "positive", created_at := 50 }] },
           { id := 1, user_id := 7, book_id := 2, book_title := "B2", book_author := "A2",
             review_text := "new text", sentiment := "positive", created_at := 50 }) :=
  ⟨rfl, by decide⟩

/-- C3 counterexample: create_review accepts (does not reject with any
error) both a request whose review_text is empty and a request whose
review_text contains the plain words drop table — the implemented denylist
pattern requires the longer prefix embedded in `sqlPat1`, and no emptiness
check on review_text exists. -/
theorem create_review_accepts_empty_and_plain_drop_table :
    (create_review dbW4 1 rdEmpty classifyPos 5).isOk = true
      ∧ (create_review dbW4 1 rdDrop classifyPos 5).isOk = true :=
  ⟨by decide, by decide⟩

/-- C3 (amended): create_review rejects with HTTPException 400
"Invalid input detected." every request whose book_title is empty, whose
book_author is empty, or whose lower-cased review_text contains one of the
implemented denylist substrings (`sqlPat1`, "delete from", "--"). -/
theorem create_review_validation_rule :
    ∀ (db : DB) (uid : Nat) (rd : ReviewCreate) (classify : String → String) (now : Int),
      (rd.book_title.length = 0 ∨ rd.book_author.length = 0
        ∨ denylisted_create rd.review_text = true) →
      create_review db uid rd classify now = .error (.http 400 "Invalid input detected.") := by
  intro db uid rd classify now h
  have hc : (denylisted_create rd.review_text
      || rd.book_title.length == 0 || rd.book_author.length == 0) = true := by
    rcases h with h | h | h <;> simp [h]
  unfold create_review
  rw [hc]
  rfl

/-- C3 witness: the amended rule applied to a concrete request with an
empty book_title. -/
theorem create_review_validation_rule_witness :
    create_review dbW4 1 rdNoTitle classifyPos 5
      = .error (.http 400 "Invalid input detected.") :=
  create_review_validation_rule dbW4 1 rdNoTitle classifyPos 5 (Or.inl rfl)

/-- C2: every create_review input whose review_text exceeds 1000 characters
fails with an HTTPException 400 regardless of the other fields; but every
update_review invocation — whatever its review_text — fails with the
line-342 AttributeError instead of the claimed ValidationError (the update
handler contains no length check at all and crashes before any check). -/
theorem long_text_validation_create_and_update_crash :
    (∀ (db : DB) (uid : Nat) (rd : ReviewCreate) (classify : String → String) (now : Int),
        1000 < rd.review_text.length →
        isHttp400 (create_review db uid rd classify now) = true)
      ∧ (∀ (db : DB) (uid : Nat) (rd : ReviewUpdate),
        update_review db uid rd
          = .error (.attributeError "ReviewUpdate object has no attribute lower")) := by
  constructor
  · intro db uid rd classify now h
    have hd : decide (1000 < rd.review_text.length) = true := decide_eq_true h
    unfold create_review
    rw [hd]
    split
    · rfl
    · rfl
  · intro db uid rd
    rfl

set_option maxRecDepth 8192 in
/-- C2 witness: a concrete 1001-character review_text is rejected with a
400 by create_review. -/
theorem long_text_validation_witness :
    isHttp400 (create_review dbW4 1 rdLong classifyPos 0) = true :=
  long_text_validation_create_and_update_crash.1 dbW4 1 rdLong classifyPos 0 (by decide)

/-- C9: every failure of get_current_user — bad signature, expired token,
malformed token, missing sub claim, or sub not matching any stored user —
produces the one outcome HTTPException 401 "Invalid authentication token";
no other error value is ever returned. -/
theorem auth_failures_single_401 :
    ∀ db : DB,
      (∀ (d : DecodeResult) (e : ApiError),
          get_current_user d db = .error e → e = .http 401 "Invalid authentication token")
      ∧ get_current_user .badSignature db = .error (.http 401 "Invalid authentication token")
      ∧ get_current_user .expired db = .error (.http 401 "Invalid authentication token")
      ∧ get_current_user .malformed db = .error (.http 401 "Invalid authentication token")
      ∧ get_current_user (.payload none) db = .error (.http 401 "Invalid authentication token")
      ∧ (∀ email, db.users.find? (fun u => u.email == email) = none →
          get_current_user (.payload (some email)) db
            = .error (.http 401 "Invalid authentication token")) := by
  intro db
  refine ⟨?_, rfl, rfl, rfl, rfl, ?_⟩
  · intro d e h
    cases d with
    | payload sub =>
      cases sub with
      | none =>
        simp only [get_current_user, Except.error.injEq] at h
        exact h.symm
      | some email =>
        simp only [get_current_user] at h
        cases hf : db.users.find? (fun u => u.email == email) with
        | none =>
          rw [hf] at h
          simp only [Except.error.injEq] at h
          exact h.symm
        | some u =>
          rw [hf] at h
          exact Except.noConfusion h
    | badSignature =>
      simp only [get_current_user, Except.error.injEq] at h
      exact h.symm
    | expired =>
      simp only [get_current_user, Except.error.injEq] at h
      exact h.symm
    | malformed =>
      simp only [get_current_user, Except.error.injEq] at h
      exact h.symm
  · intro email h
    simp only [get_current_user]
    rw [h]

/-- C9 witness: a structurally valid token whose subject matches no stored
user yields the same single 401 outcome. -/
theorem auth_failures_single_401_witness :
    get_current_user (.payload (some "nobody@x")) dbW9
      = .error (.http 401 "Invalid authentication token") :=
  (auth_failures_single_401 dbW9).2.2.2.2.2 "nobody@x" rfl

/-- C8: analyze_sentiment always yields one of positive, negative, neutral;
a lower-cased label positive or negative maps to itself and any other label
collapses to neutral; and every review stored by a successful create_review
carries exactly the sentiment derived from its review_text by
analyze_sentiment (there is no sentiment field in ReviewCreate, so it is
never client-supplied). -/
theorem sentiment_mapping_total :
    ∀ (classify : String → String) (text : String),
      (analyze_sentiment classify text = "positive"
        ∨ analyze_sentiment classify text = "negative"
        ∨ analyze_sentiment classify text = "neutral")
      ∧ (pyLower (classify text) = "positive" → analyze_sentiment classify text = "positive")
      ∧ (pyLower (classify text) = "negative" → analyze_sentiment classify text = "negative")
      ∧ (pyLower (classify text) ≠ "positive" → pyLower (classify text) ≠ "negative" →
          analyze_sentiment classify text = "neutral")
      ∧ (∀ (db : DB) (uid : Nat) (rd : ReviewCreate) (now : Int) (db2 : DB)
            (resp : ReviewResponse),
          rd.review_text = text →
          create_review db uid rd classify now = .ok (db2, resp) →
          resp.sentiment = analyze_sentiment classify text
            ∧ ∀ r ∈ db2.reviews, r ∈ db.reviews
                ∨ r.sentiment = analyze_sentiment classify text) := by
  intro classify text
  refine ⟨?_, ?_, ?_, ?_, ?_⟩
  · simp only [analyze_sentiment]
    split
    · exact Or.inl rfl
    · split
      · exact Or.inr (Or.inl rfl)
      · exact Or.inr (Or.inr rfl)
  · intro h
    simp [analyze_sentiment, h]
  · intro h
    simp [analyze_sentiment, h]
  · intro h1 h2
    have hb1 : (pyLower (classify text) == "positive") = false := beq_eq_false_iff_ne.mpr h1
    have hb2 : (pyLower (classify text) == "negative") = false := beq_eq_false_iff_ne.mpr h2
    simp [analyze_sentiment, hb1, hb2]
  · intro db uid rd now db2 resp htext h
    simp only [create_review] at h
    split at h
    · exact Except.noConfusion h
    · split at h
      · exact Except.noConfusion h
      · split at h
        · exact Except.noConfusion h
        · split at h
          · exact Except.noConfusion h
          · simp only [Except.ok.injEq, Prod.mk.injEq] at h
            obtain ⟨hdb2, hresp⟩ := h
            subst hdb2
            subst hresp
            constructor
            · show analyze_sentiment classify rd.review_text = analyze_sentiment classify text
              rw [htext]
            · intro r hr
              have hr2 : r ∈ db.reviews ++
                  [({ id := nextReviewId db, user_id := uid, book_id := _,
                      review_text := rd.review_text,
                      sentiment := analyze_sentiment classify rd.review_text,
                      created_at := now } : Review)] := hr
              rcases List.mem_append.mp hr2 with hl | hrr
              · exact Or.inl hl
              · rcases List.mem_singleton.mp hrr with hre
                subst hre
                right
                show analyze_sentiment classify rd.review_text = analyze_sentiment classify text
                rw [htext]

/-- C8 witness: the label POSITIVE lower-cases to positive and maps to the
stored sentiment positive. -/
theorem sentiment_mapping_total_witness :
    analyze_sentiment classifyPos "good" = "positive" :=
  (sentiment_mapping_total classifyPos "good").2.1 (by decide)

/-- C4: if a create_review call succeeds, the same user re-posting the same
request against the resulting database fails with the Conflict-style 400
"You have already reviewed this book.", and the resulting database holds
exactly one review for that (user_id, book_id) pair. -/
theorem create_review_duplicate_conflict :
    ∀ (db : DB) (uid : Nat) (rd : ReviewCreate) (classify classify2 : String → String)
      (now now2 : Int) (db2 : DB) (resp : ReviewResponse),
      create_review db uid rd classify now = .ok (db2, resp) →
      create_review db2 uid rd classify2 now2
          = .error (.http 400 "You have already reviewed this book.")
        ∧ (db2.reviews.filter (fun r => r.user_id == uid && r.book_id == resp.book_id)).length
            = 1 := by
  intro db uid rd classify classify2 now now2 db2 resp h
  simp only [create_review] at h
  split at h
  · exact Except.noConfusion h
  · rename_i hc1
    split at h
    · exact Except.noConfusion h
    · rename_i hc2
      split at h
      · exact Except.noConfusion h
      · rename_i book hbook
        split at h
        · exact Except.noConfusion h
        · rename_i hex
          simp only [Except.ok.injEq, Prod.mk.injEq] at h
          obtain ⟨hdb2, hresp⟩ := h
          subst hdb2
          subst hresp
          have hc1f : (denylisted_create rd.review_text || rd.book_title.length == 0
              || rd.book_author.length == 0) = false := Bool.eq_false_iff.mpr hc1
          have hc2f : decide (1000 < rd.review_text.length) = false := Bool.eq_false_iff.mpr hc2
          have hnil : db.reviews.filter (fun r => r.user_id == uid && r.book_id == book.id)
              = [] :=
            List.filter_eq_nil_iff.mpr (List.find?_eq_none.mp hex)
          constructor
          · simp [create_review, hc1f, hc2f, hbook, List.find?_append, hex, List.find?]
          · simp [List.filter_append, hnil, List.filter]

/-- C4 witness: user 1 posts `rdW4` on `dbW4` successfully; re-posting on
the resulting state `dbW4b` yields the 400 conflict and the stored count
for the pair stays 1. -/
theorem create_review_duplicate_conflict_witness :
    create_review dbW4b 1 rdW4 classifyPos 200
        = .error (.http 400 "You have already reviewed this book.")
      ∧ (dbW4b.reviews.filter
          (fun r => r.user_id == 1 && r.book_id == respW4.book_id)).length = 1 :=
  create_review_duplicate_conflict dbW4 1 rdW4 classifyPos classifyPos 100 200 dbW4b respW4
    (by decide)

/-- C6: under referential integrity of reviews to books, get_reviews fails
with 404 "No reviews found in the system" exactly when there are zero
reviews system-wide; and in a successful result, within each book's review
list every positive review precedes every non-positive one and, within a
sentiment tier, created_at is non-increasing (descending order). -/
theorem get_reviews_grouped_properties :
    ∀ db : DB,
      (∀ r ∈ db.reviews, ∃ b ∈ db.books, b.id = r.book_id) →
      ((get_reviews db = .error (.http 404 "No reviews found in the system"))
          ↔ db.reviews = [])
        ∧ (∀ gs, get_reviews db = .ok gs → ∀ g ∈ gs,
            List.Pairwise (fun a b : ReviewResponseGrouped =>
              (b.sentiment = "positive" → a.sentiment = "positive")
                ∧ (sentimentRank a.sentiment = sentimentRank b.sentiment →
                    b.created_at ≤ a.created_at)) g.reviews) := by
  intro db hwf
  constructor
  · simp only [get_reviews]
    split
    · rename_i hEmpty
      constructor
      · intro _
        have h0 : sortLE rowLE (joinRows db) = [] := List.isEmpty_iff.mp hEmpty
        have hlen := (sortLE_perm rowLE (joinRows db)).length_eq
        rw [h0] at hlen
        have : joinRows db = [] := List.eq_nil_of_length_eq_zero hlen.symm
        exact (joinRows_eq_nil_iff db hwf).mp this
      · intro _
        rfl
    · rename_i hEmpty
      constructor
      · intro h
        exact Except.noConfusion h
      · intro hrev
        exfalso
        apply hEmpty
        rw [List.isEmpty_iff]
        rw [(joinRows_eq_nil_iff db hwf).mpr hrev]
        rfl
  · intro gs hgs g hg
    simp only [get_reviews] at hgs
    split at hgs
    · exact Except.noConfusion hgs
    · simp only [Except.ok.injEq] at hgs
      subst hgs
      rw [List.mem_map] at hg
      obtain ⟨bid, hbid, hgeq⟩ := hg
      subst hgeq
      have hsorted : List.Pairwise (fun a b => rowLE a b = true)
          (sortLE rowLE (joinRows db)) :=
        sortLE_pairwise rowLE rowLE_trans rowLE_total (joinRows db)
      have hfil : List.Pairwise (fun a b => rowLE a b = true)
          ((sortLE rowLE (joinRows db)).filter (fun r => r.book_id == bid)) :=
        List.Pairwise.sublist (List.filter_sublist _) hsorted
      show List.Pairwise _
        (((sortLE rowLE (joinRows db)).filter (fun r => r.book_id == bid)).map _)
      rw [List.pairwise_map]
      refine hfil.imp ?_
      intro a b hab
      dsimp only
      simp only [rowLE, Bool.or_eq_true, Bool.and_eq_true, decide_eq_true_eq,
        beq_iff_eq] at hab
      constructor
      · intro hbpos
        have hrb : sentimentRank b.sentiment = 1 :=
          (sentimentRank_eq_one_iff b.sentiment).mpr hbpos
        have hra := one_le_sentimentRank a.sentiment
        refine (sentimentRank_eq_one_iff a.sentiment).mp ?_
        rcases hab with h | ⟨h1, h2⟩
        · omega
        · omega
      · intro heq
        rcases hab with h | ⟨h1, h2⟩
        · exact absurd heq (by omega)
        · exact h2

/-- C6 witness: the 404-iff-empty property applied to the concrete
non-empty state `dbC6`. -/
theorem get_reviews_grouped_properties_witness :
    (get_reviews dbC6 = .error (.http 404 "No reviews found in the system"))
      ↔ dbC6.reviews = [] :=
  (get_reviews_grouped_properties dbC6 (by decide)).1

/-- C7 counterexample: `count` is a Python int path parameter, so it can be
negative; on `dbC7` (two trending books) the call with count = -1 slices
`trending_books[:-1]` and returns one entry, which exceeds the count -1 —
refuting "returns at most n entries" for every count n. -/
theorem trending_books_negative_count_exceeds :
    get_trending_books dbC7 1209600 (-1) = .ok lC7neg
      ∧ (-1 : Int) < (lC7neg.length : Int) :=
  ⟨by decide, by decide⟩

/-- Core facts about the tail of get_trending_books: slicing the
descending-count sort of any list of (book, count) pairs whose counts are
the positive qualifying counts of their books. -/
lemma trending_core (db : DB) (wk : Int) (n : Int) (hn : 0 ≤ n)
    (pairs : List (Book × Nat))
    (hpairs : ∀ p ∈ pairs, p.2 = qualifyingCount db wk p.1.id ∧ 0 < p.2) :
    ((((pySlice (sortLE countDescLE pairs) n).map (fun p =>
        ({ id := p.1.id, title := p.1.title, author := p.1.author,
           review_count := p.2 } : BookResponse))).length : Int) ≤ n)
      ∧ (∀ b ∈ (pySlice (sortLE countDescLE pairs) n).map (fun p =>
          ({ id := p.1.id, title := p.1.title, author := p.1.author,
             review_count := p.2 } : BookResponse)),
          b.review_count = qualifyingCount db wk b.id
            ∧ ∃ r ∈ db.reviews, r.book_id = b.id ∧ r.sentiment = "positive"
                ∧ wk ≤ r.created_at)
      ∧ List.Pairwise (fun a b : BookResponse => b.review_count ≤ a.review_count)
          ((pySlice (sortLE countDescLE pairs) n).map (fun p =>
            ({ id := p.1.id, title := p.1.title, author := p.1.author,
               review_count := p.2 } : BookResponse))) := by
  have hsub : (pySlice (sortLE countDescLE pairs) n).Sublist (sortLE countDescLE pairs) := by
    unfold pySlice
    split
    · exact List.take_sublist _ _
    · exact List.take_sublist _ _
  refine ⟨?_, ?_, ?_⟩
  · rw [List.length_map]
    unfold pySlice
    rw [if_pos hn]
    rw [List.length_take]
    omega
  · intro b hb
    rw [List.mem_map] at hb
    obtain ⟨p, hp, hfb⟩ := hb
    subst hfb
    have hpm : p ∈ pairs :=
      ((sortLE_perm countDescLE pairs).mem_iff).mp (List.Sublist.mem hp hsub)
    obtain ⟨hq, hpos⟩ := hpairs p hpm
    constructor
    · exact hq
    · rw [hq] at hpos
      unfold qualifyingCount at hpos
      obtain ⟨x, hx⟩ := List.exists_mem_of_length_pos hpos
      rw [List.mem_filter] at hx
      obtain ⟨hxr, hxq⟩ := hx
      simp only [Bool.and_eq_true, beq_iff_eq, decide_eq_true_eq] at hxq
      exact ⟨x, hxr, hxq.1.1, hxq.1.2, hxq.2⟩
  · have hsorted := sortLE_pairwise countDescLE countDescLE_trans countDescLE_total pairs
    have hfil := List.Pairwise.sublist hsub hsorted
    rw [List.pairwise_map]
    refine hfil.imp ?_
    intro a b hab
    dsimp only
    simpa [countDescLE] using hab

/-- C7 (amended): for every nonnegative count n, a successful
get_trending_books db now n returns at most n entries; each returned entry
reports as review_count exactly the number of that book's reviews that are
positive and created within the trailing 7 days, has at least one such
qualifying review, and the entries are sorted by review_count descending. -/
theorem trending_books_bounds :
    ∀ (db : DB) (now : Int) (n : Int), 0 ≤ n →
      ∀ l, get_trending_books db now n = .ok l →
        ((l.length : Int) ≤ n)
          ∧ (∀ b ∈ l, b.review_count = qualifyingCount db (now - 604800) b.id
              ∧ ∃ r ∈ db.reviews, r.book_id = b.id ∧ r.sentiment = "positive"
                  ∧ now - 604800 ≤ r.created_at)
          ∧ List.Pairwise (fun a b : BookResponse => b.review_count ≤ a.review_count) l := by
  intro db now n hn l hl
  simp only [get_trending_books] at hl
  split at hl
  · exact Except.noConfusion hl
  · split at hl
    · simp only [Except.ok.injEq] at hl
      subst hl
      refine ⟨by simpa using hn, ?_, List.Pairwise.nil⟩
      intro b hb
      exact absurd hb (List.not_mem_nil b)
    · simp only [Except.ok.injEq] at hl
      subst hl
      refine trending_core db (now - 604800) n hn _ ?_
      intro p hp
      rw [List.mem_filter] at hp
      obtain ⟨hm, hpos⟩ := hp
      rw [List.mem_map] at hm
      obtain ⟨bk, hbk, hgbk⟩ := hm
      subst hgbk
      exact ⟨rfl, by simpa using hpos⟩

/-- C7 witness: the amended bound applied at count 10 on `dbC7`, whose
result is the two-entry list `lC7pos`. -/
theorem trending_books_bounds_witness :
    ((lC7pos.length : Int) ≤ 10) :=
  (trending_books_bounds dbC7 1209600 10 (by decide) lC7pos (by decide)).1

end BookReview
